import Mathlib

/-!
Shallow embedding of the terminal-ui repository (src/ui.py) for verifying its
specification.  The embedding covers the animation core: spinner lifecycle and
its scoped (context-manager) acquisition, the `ProgressBar` state and its
`update` / `set_progress` / `finish` operations, the `_render` computation, and
the `MultiProgress` coordinator.

Modelling conventions:
* Python `int` is `Int`; `time.time()` values (Python floats holding wall-clock
  seconds) are modelled as exact rationals `ℚ` and passed in explicitly at each
  call that reads the clock.
* Python `int(x)` on a nonintegral quotient truncates toward zero; on the exact
  quotient `a / b` of integers this is `Int.tdiv a b`, which is used wherever
  the source computes `int((a / b) * c)`.
* Terminal output is modelled as a trace of `TermEv` events; a rendered
  progress line is modelled structurally (`RenderLine`) rather than as the
  formatted string, keeping every quantity the source computes for the line.
* Python division raises `ZeroDivisionError` on a zero divisor; the
  division-checked variant `ProgressBar.renderChecked` models each division of
  `_render` with an `Option` that is `none` exactly when a divisor is zero.
-/

/-- Embedding of the `SpinnerStyle` enum (src/ui.py lines 70-104). -/
inductive SpinnerStyle where
  | CLASSIC | DOTS | DOTS2 | DOTS3
  | ARROW | TRIANGLE | SQUARE | CIRCLE | QUARTER
  | MOON | CLOCK | HEARTS
  | BLOCKS | BOUNCE | SNAKE
  | BINARY | DNA | PULSE
  | MATRIX
  | WEATHER
deriving DecidableEq

/-- The glyph sequence of each `SpinnerStyle` member (its Python enum value).
`MATRIX` is `list("ABC...")`, a list of one-character strings. -/
def SpinnerStyle.frames : SpinnerStyle → List String
  | .CLASSIC => ["|", "/", "-", "\\"]
  | .DOTS => ["⠋", "⠙", "⠹", "⠸", "⠼", "⠴", "⠦", "⠧", "⠇", "⠏"]
  | .DOTS2 => ["⣾", "⣽", "⣻", "⢿", "⡿", "⣟", "⣯", "⣷"]
  | .DOTS3 => ["⠄", "⠆", "⠇", "⠋", "⠙", "⠸", "⠰", "⠠", "⠰", "⠸", "⠙", "⠋", "⠇", "⠆"]
  | .ARROW => ["←", "↖", "↑", "↗", "→", "↘", "↓", "↙"]
  | .TRIANGLE => ["▲", "▶", "▼", "◀"]
  | .SQUARE => ["▖", "▘", "▝", "▗"]
  | .CIRCLE => ["◐", "◓", "◑", "◒"]
  | .QUARTER => ["◴", "◷", "◶", "◵"]
  | .MOON => ["🌑", "🌒", "🌓", "🌔", "🌕", "🌖", "🌗", "🌘"]
  | .CLOCK => ["🕐", "🕑", "🕒", "🕓", "🕔", "🕕", "🕖", "🕗", "🕘", "🕙", "🕚", "🕛"]
  | .HEARTS => ["🤍", "🤎", "❤️", "🧡", "💛", "💚", "💙", "💜"]
  | .BLOCKS => ["▁", "▂", "▃", "▄", "▅", "▆", "▇", "█", "▇", "▆", "▅", "▄", "▃", "▁"]
  | .BOUNCE => ["⠁", "⠂", "⠄", "⠂"]
  | .SNAKE => ["⣀", "⣄", "⣤", "⣦", "⣶", "⣷", "⣿", "⢿", "⡿", "⠿", "⢻", "⣛", "⣋", "⣍",
               "⡋", "⠋", "⠙", "⠹", "⢸", "⣸", "⣴", "⣤", "⣄", "⣀"]
  | .BINARY => ["0", "1"]
  | .DNA => ["⠋", "⠙", "⠸", "⠴", "⠦", "⠇", "⠏", "⠋"]
  | .PULSE => ["●", "◐", "○", "◑"]
  | .MATRIX =>
      ("ABCDEFGHIJKLMNOPQRSTUVWXYZ0123456789@#$%^&*()_+-=[]\x7b\x7d|;:,./<>?").data.map
        (fun c => String.mk [c])
  | .WEATHER => ["☀️", "⛅", "☁️", "🌧️", "⛈️", "🌦️", "🌈"]

/-- Embedding of the `ProgressStyle` enum (src/ui.py lines 107-118).  In the
Python `Enum`, `CIRCLES` has the same value as `DOTS` and is therefore an
alias of it; here it is a distinct constructor with the same glyph value,
which is observationally identical for everything the code does with it. -/
inductive ProgressStyle where
  | BLOCKS | BLOCKS2 | ARROWS | EQUALS | DOTS
  | PIPES | SQUARES | CIRCLES | DIAMONDS | GRADIENT
deriving DecidableEq

/-- The glyph tuple of each `ProgressStyle` member (its Python enum value),
as a list of characters. -/
def ProgressStyle.value : ProgressStyle → List Char
  | .BLOCKS => ['█', '░']
  | .BLOCKS2 => ['▰', '▱']
  | .ARROWS => ['>', '-']
  | .EQUALS => ['=', ' ']
  | .DOTS => ['●', '○']
  | .PIPES => ['|', ' ']
  | .SQUARES => ['■', '□']
  | .CIRCLES => ['●', '○']
  | .DIAMONDS => ['♦', '♢']
  | .GRADIENT => ['█', '▓', '▒', '░']

/-- Glyph selection of `ProgressBar._render` (src/ui.py lines 772-780):
`GRADIENT` unpacks `fill_char, empty1, empty2, empty3` and uses `empty3`
(the last glyph of the tuple) as the empty glyph; every other style unpacks
a `(fill_char, empty_char)` pair. -/
def styleChars (s : ProgressStyle) : Char × Char :=
  if s = ProgressStyle.GRADIENT then (s.value.getD 0 ' ', s.value.getD 3 ' ')
  else (s.value.getD 0 ' ', s.value.getD 1 ' ')

/-- The ETA part of a rendered progress line (src/ui.py lines 795-801):
either a projected remaining time or the completion message. -/
inductive EtaDisplay where
  | eta (seconds : ℚ)
  | done (elapsed : ℚ)
deriving DecidableEq

/-- Structural model of the line composed by `ProgressBar._render`
(src/ui.py lines 762-809): every quantity the source computes for the line
(percentage, the bar body, the success-colour switch, the ETA field and the
`(current/total)` counts), kept as fields instead of being formatted into one
string. -/
structure RenderLine where
  message : String
  bar : List Char
  success : Bool
  percentage : Int
  showPercentage : Bool
  etaInfo : Option EtaDisplay
  current : Int
  total : Int
deriving DecidableEq

/-- Terminal events: the primitives of `TerminalUI` the animation core calls
(hide/show cursor, clear line, move up, raw writes, the trailing `print()`
newline), plus call markers for `Spinner.start` / `Spinner.stop` so that
"called exactly once" is a statement about the trace. -/
inductive TermEv where
  | hideCursor
  | showCursor
  | clearLine
  | moveUp (n : Int)
  | write (line : RenderLine)
  | newline
  | startCall
  | stopCall
deriving DecidableEq

def TermEv.isNewline : TermEv → Bool
  | TermEv.newline => true
  | _ => false

def TermEv.isWrite : TermEv → Bool
  | TermEv.write _ => true
  | _ => false

def TermEv.isMoveUp : TermEv → Bool
  | TermEv.moveUp _ => true
  | _ => false

def TermEv.isClearLine : TermEv → Bool
  | TermEv.clearLine => true
  | _ => false

def TermEv.isStopCall : TermEv → Bool
  | TermEv.stopCall => true
  | _ => false

def TermEv.isShowCursor : TermEv → Bool
  | TermEv.showCursor => true
  | _ => false

def TermEv.isHideCursor : TermEv → Bool
  | TermEv.hideCursor => true
  | _ => false

/-- Embedding of the `Spinner` class state (src/ui.py lines 649-661): the
`running` flag is the whole lifecycle state of the source (there is no
four-state enum in the code).  The background thread object and its timing
are not part of the state the claims are about; the frame sequence is
recovered from `style` by `SpinnerStyle.frames`. -/
structure Spinner where
  message : String
  style : SpinnerStyle
  colorKey : String
  suffix : String
  running : Bool
deriving DecidableEq

/-- `Spinner.__init__`: a fresh spinner starts not running. -/
def Spinner.init (message : String) (style : SpinnerStyle)
    (colorKey suffix : String) : Spinner :=
  { message := message, style := style, colorKey := colorKey,
    suffix := suffix, running := false }

/-- Embedding of `Spinner.start` (src/ui.py lines 663-671): a no-op if already
running; otherwise sets `running`, hides the cursor and launches the repaint
thread (the thread itself is not modelled; its frame selection is `frameAt`).
`startCall` marks the method invocation in the trace. -/
def Spinner.start (s : Spinner) : Spinner × List TermEv :=
  if s.running then (s, [TermEv.startCall])
  else ({ s with running := true }, [TermEv.startCall, TermEv.hideCursor])

/-- Embedding of `Spinner.stop` / `Spinner._stop` (src/ui.py lines 673-687):
a no-op if not running; otherwise clears `running`, joins the thread with a
bounded wait (timing not modelled), clears the line and restores the cursor.
`stopCall` marks the method invocation in the trace. -/
def Spinner.stop (s : Spinner) : Spinner × List TermEv :=
  if s.running then
    ({ s with running := false },
     [TermEv.stopCall, TermEv.clearLine, TermEv.showCursor])
  else (s, [TermEv.stopCall])

/-- Frame selection of `Spinner._animate` (src/ui.py lines 693-698): the
`MATRIX` style draws a uniformly random frame (the draw is supplied as
`rand`); every other style indexes `frames[frame_index % len(frames)]`. -/
def frameAt (style : SpinnerStyle) (frameIndex : Nat) (rand : Nat) : String :=
  if style = SpinnerStyle.MATRIX then
    style.frames.getD (rand % style.frames.length) ""
  else
    style.frames.getD (frameIndex % style.frames.length) ""

/-- Outcome of the caller-supplied body of a scoped (`with`) block: it may
fall through normally, exit via an early `return`, or raise a failure. -/
inductive Outcome (ε α : Type) where
  | ok (a : α)
  | early (a : α)
  | raised (e : ε)
deriving DecidableEq

/-- Semantics of Python `try: ... finally: ...` as used by the context
managers of src/ui.py: the try part runs producing a state, a trace and an
outcome; the finally part then runs unconditionally on the resulting state;
the try part's outcome (normal, early return, or raised failure) propagates
unchanged afterwards. -/
def tryFinallyRun {σ ε α : Type} (tryPart : σ → σ × List TermEv × Outcome ε α)
    (finPart : σ → σ × List TermEv) (s : σ) : σ × List TermEv × Outcome ε α :=
  let t := tryPart s
  let f := finPart t.1
  (f.1, t.2.1 ++ f.2, t.2.2)

/-- The `_active_spinners` registry of `TerminalUI` relevant to the spinner
block (spinner objects are identified by index of creation). -/
structure UIState where
  activeSpinners : List Nat
deriving DecidableEq

/-- Embedding of the `TerminalUI.spinner` context manager (src/ui.py lines
432-444): construct the spinner, append it to `_active_spinners`, then
`try: start(); yield` with `finally: stop(); remove from _active_spinners`.
The caller's body is abstracted by its outcome (it owns no spinner state). -/
def TerminalUI.spinner {ε α : Type} (message : String) (style : SpinnerStyle)
    (colorKey suffix : String) (body : Outcome ε α) :
    ((Spinner × UIState) × List TermEv) × Outcome ε α :=
  let spinnerObj := Spinner.init message style colorKey suffix
  let st0 : Spinner × UIState := (spinnerObj, { activeSpinners := [0] })
  let r := tryFinallyRun
    (fun st => let r1 := st.1.start; ((r1.1, st.2), r1.2, body))
    (fun st =>
      let r2 := st.1.stop
      ((r2.1, { activeSpinners := st.2.activeSpinners.erase 0 }), r2.2))
    st0
  ((r.1, r.2.1), r.2.2)

/-- Embedding of the `ProgressBar` class state (src/ui.py lines 720-737). -/
structure ProgressBar where
  message : String
  total : Int
  style : ProgressStyle
  width : Int
  showPercentage : Bool
  showEta : Bool
  current : Int
  startTime : ℚ
  lastUpdate : ℚ
deriving DecidableEq

/-- Embedding of `ProgressBar.__init__` (src/ui.py lines 723-737): no
validation of any argument is performed; `width or min(40, ui.width - 30)`
takes the default when `width` is `None` or `0` (falsy).  `current` starts
at 0 and both clocks at construction time. -/
def ProgressBar.init (message : String) (total : Int) (style : ProgressStyle)
    (width : Option Int) (showPercentage showEta : Bool)
    (uiWidth : Int) (now : ℚ) : ProgressBar :=
  { message := message, total := total, style := style,
    width := match width with
      | some w => if w = 0 then min 40 (uiWidth - 30) else w
      | none => min 40 (uiWidth - 30),
    showPercentage := showPercentage, showEta := showEta,
    current := 0, startTime := now, lastUpdate := now }

/-- The percentage computed by `ProgressBar._render` (src/ui.py lines
764-767): 100 when `total == 0`, otherwise `int((current / total) * 100)`,
i.e. the exact quotient truncated toward zero. -/
def ProgressBar.percentage (pb : ProgressBar) : Int :=
  if pb.total = 0 then 100 else Int.tdiv (pb.current * 100) pb.total

/-- The filled width computed by `ProgressBar._render` (src/ui.py line 770):
`int((current / total) * width) if total > 0 else 0`. -/
def ProgressBar.filledWidth (pb : ProgressBar) : Int :=
  if 0 < pb.total then Int.tdiv (pb.current * pb.width) pb.total else 0

/-- Embedding of `ProgressBar._render` (src/ui.py lines 762-809) as the
structural line it composes.  String repetition `ch * n` is
`List.replicate n.toNat ch` (Python yields the empty string for negative
`n`).  The ETA is computed only when `show_eta` and `current > 0`. -/
def ProgressBar.renderLine (pb : ProgressBar) (now : ℚ) : RenderLine :=
  let chars := styleChars pb.style
  let filled : List Char := List.replicate pb.filledWidth.toNat chars.1
  let empty : List Char :=
    List.replicate (pb.width - pb.filledWidth).toNat chars.2
  let etaInfo : Option EtaDisplay :=
    if pb.showEta ∧ 0 < pb.current then
      if pb.current < pb.total then
        some (EtaDisplay.eta (((now - pb.startTime) / (pb.current : ℚ)) *
          ((pb.total : ℚ) - (pb.current : ℚ))))
      else some (EtaDisplay.done (now - pb.startTime))
    else none
  { message := pb.message
    bar := filled ++ empty
    success := pb.current == pb.total
    percentage := pb.percentage
    showPercentage := pb.showPercentage
    etaInfo := etaInfo
    current := pb.current
    total := pb.total }

/-- Integer division as Python executes it: `ZeroDivisionError` (here `none`)
on a zero divisor, otherwise the quotient truncated toward zero. -/
def idivChecked (a b : Int) : Option Int :=
  if b = 0 then none else some (Int.tdiv a b)

/-- Rational division as Python executes it: `ZeroDivisionError` (here
`none`) on a zero divisor. -/
def qdivChecked (a b : ℚ) : Option ℚ :=
  if b = 0 then none else some (a / b)

/-- `ProgressBar._render` with every division it can execute routed through
the checked dividers, following the source's own guards (`total == 0` branch
for the percentage, `total > 0` for the fill width, `current > 0` for the
ETA): the result is `none` exactly when some executed division has a zero
divisor. -/
def ProgressBar.renderChecked (pb : ProgressBar) (now : ℚ) :
    Option RenderLine :=
  Option.bind
    (if pb.total = 0 then some 100
     else idivChecked (pb.current * 100) pb.total) fun percentage =>
  Option.bind
    (if 0 < pb.total then idivChecked (pb.current * pb.width) pb.total
     else some 0) fun filledWidth =>
  Option.bind
    (if pb.showEta ∧ 0 < pb.current then
      if pb.current < pb.total then
        Option.bind (qdivChecked (now - pb.startTime) (pb.current : ℚ)) fun q =>
          some (some (EtaDisplay.eta (q * ((pb.total : ℚ) - (pb.current : ℚ)))))
      else some (some (EtaDisplay.done (now - pb.startTime)))
    else some none) fun etaInfo =>
  some { message := pb.message
         bar := List.replicate filledWidth.toNat (styleChars pb.style).1
                ++ List.replicate (pb.width - filledWidth).toNat (styleChars pb.style).2
         success := pb.current == pb.total
         percentage := percentage
         showPercentage := pb.showPercentage
         etaInfo := etaInfo
         current := pb.current
         total := pb.total }

/-- The terminal events `_render` emits: clear the current line, then write
the composed line (src/ui.py lines 806-809). -/
def ProgressBar.renderEvents (pb : ProgressBar) (now : ℚ) : List TermEv :=
  [TermEv.clearLine, TermEv.write (pb.renderLine now)]

/-- Embedding of `ProgressBar.update` (src/ui.py lines 739-749): clamp
`current` at `total` from above, then either return without rendering when
the throttle window (0.05 s) has not elapsed and the bar is not complete, or
record the render time and render. -/
def ProgressBar.update (pb : ProgressBar) (amount : Int) (now : ℚ) :
    ProgressBar × List TermEv :=
  let pb1 := { pb with current := min (pb.current + amount) pb.total }
  if now - pb1.lastUpdate < 1 / 20 ∧ pb1.current < pb1.total then (pb1, [])
  else
    let pb2 := { pb1 with lastUpdate := now }
    (pb2, pb2.renderEvents now)

/-- Embedding of `ProgressBar.set_progress` (src/ui.py lines 751-754):
`current = min(max(0, value), total)`, then always render. -/
def ProgressBar.set_progress (pb : ProgressBar) (value : Int) (now : ℚ) :
    ProgressBar × List TermEv :=
  let pb1 := { pb with current := min (max 0 value) pb.total }
  (pb1, pb1.renderEvents now)

/-- Embedding of `ProgressBar.finish` (src/ui.py lines 756-760): force
`current = total`, render, then `print()` a newline. -/
def ProgressBar.finish (pb : ProgressBar) (now : ℚ) :
    ProgressBar × List TermEv :=
  let pb1 := { pb with current := pb.total }
  (pb1, pb1.renderEvents now ++ [TermEv.newline])

/-- A sequence of `update` calls, each with its amount and the clock value at
the call, folded over the bar; the emitted events are concatenated in call
order. -/
def ProgressBar.updateRun (pb : ProgressBar) (calls : List (Int × ℚ)) :
    ProgressBar × List TermEv :=
  match calls with
  | [] => (pb, [])
  | c :: rest =>
    let step := pb.update c.1 c.2
    let restRun := step.1.updateRun rest
    (restRun.1, step.2 ++ restRun.2)

/-- Embedding of the `MultiProgress` registry (src/ui.py lines 812-845): an
insertion-ordered dict from name to bar.  The registry lock serializes
`add_progress` / `remove_progress` / `render_all`; with the lock held each
operation is the sequential function modelled here. -/
structure MultiProgress where
  bars : List (String × ProgressBar)
deriving DecidableEq

/-- Embedding of `MultiProgress.add_progress` (src/ui.py lines 820-826):
construct the bar, then dict-assign it under `name` (an existing key keeps
its position, a new key is appended). -/
def MultiProgress.add_progress (m : MultiProgress) (name message : String)
    (total : Int) (style : ProgressStyle) (width : Option Int)
    (showPercentage showEta : Bool) (uiWidth : Int) (now : ℚ) :
    MultiProgress × ProgressBar :=
  let pbar := ProgressBar.init message total style width showPercentage
    showEta uiWidth now
  (if m.bars.any (fun p => p.1 == name) then
    { bars := m.bars.map (fun p => if p.1 == name then (name, pbar) else p) }
   else { bars := m.bars ++ [(name, pbar)] }, pbar)

/-- Embedding of `MultiProgress.render_all` (src/ui.py lines 834-845): under
the registry lock, `len(progress_bars)` times move the cursor up one line and
clear it, then render every registered bar in registry order, each followed
by a `print()` newline. -/
def MultiProgress.render_all (m : MultiProgress) (now : ℚ) : List TermEv :=
  (List.replicate m.bars.length [TermEv.moveUp 1, TermEv.clearLine]).flatten
  ++ (m.bars.map (fun p => p.2.renderEvents now ++ [TermEv.newline])).flatten

/-! ## Supporting lemmas -/

theorem ProgressBar.percentagePart_eq (pb : ProgressBar) :
    (if pb.total = 0 then some 100
     else idivChecked (pb.current * 100) pb.total) = some pb.percentage := by
  unfold ProgressBar.percentage idivChecked
  by_cases h0 : pb.total = 0 <;> simp [h0]

theorem ProgressBar.filledWidthPart_eq (pb : ProgressBar) :
    (if 0 < pb.total then idivChecked (pb.current * pb.width) pb.total
     else some 0) = some pb.filledWidth := by
  unfold ProgressBar.filledWidth idivChecked
  by_cases hpos : 0 < pb.total
  · have h0 : ¬ pb.total = 0 := by omega
    simp [hpos, h0]
  · simp [hpos]

theorem ProgressBar.etaPart_eq (pb : ProgressBar) (now : ℚ) :
    (if pb.showEta ∧ 0 < pb.current then
      if pb.current < pb.total then
        Option.bind (qdivChecked (now - pb.startTime) (pb.current : ℚ)) fun q =>
          some (some (EtaDisplay.eta (q * ((pb.total : ℚ) - (pb.current : ℚ)))))
      else some (some (EtaDisplay.done (now - pb.startTime)))
    else some none)
    = some (if pb.showEta ∧ 0 < pb.current then
        if pb.current < pb.total then
          some (EtaDisplay.eta (((now - pb.startTime) / (pb.current : ℚ)) *
            ((pb.total : ℚ) - (pb.current : ℚ))))
        else some (EtaDisplay.done (now - pb.startTime))
      else none) := by
  unfold qdivChecked
  by_cases hs : pb.showEta ∧ 0 < pb.current
  · have hc : pb.current ≠ 0 := by omega
    by_cases hlt : pb.current < pb.total <;>
      simp [hs, hlt, Int.cast_eq_zero, hc]
  · simp [hs]

theorem ProgressBar.renderChecked_eq (pb : ProgressBar) (now : ℚ) :
    pb.renderChecked now = some (pb.renderLine now) := by
  unfold ProgressBar.renderChecked
  rw [ProgressBar.percentagePart_eq, ProgressBar.filledWidthPart_eq,
    ProgressBar.etaPart_eq]
  rfl

theorem ProgressBar.update_current (pb : ProgressBar) (a : Int) (now : ℚ) :
    ((pb.update a now).1).current = min (pb.current + a) pb.total := by
  unfold ProgressBar.update
  dsimp only
  split <;> rfl

theorem ProgressBar.update_total (pb : ProgressBar) (a : Int) (now : ℚ) :
    ((pb.update a now).1).total = pb.total := by
  unfold ProgressBar.update
  dsimp only
  split <;> rfl

theorem ProgressBar.updateRun_total (pb : ProgressBar) (calls : List (Int × ℚ)) :
    ((pb.updateRun calls).1).total = pb.total := by
  induction calls generalizing pb with
  | nil => rfl
  | cons c rest ih =>
    simpa [ProgressBar.updateRun, ih] using ProgressBar.update_total pb c.1 c.2

theorem ProgressBar.percentage_of_complete (pb : ProgressBar)
    (h : pb.current = pb.total) : pb.percentage = 100 := by
  unfold ProgressBar.percentage
  by_cases h0 : pb.total = 0
  · simp [h0]
  · rw [if_neg h0, h]
    exact Int.mul_tdiv_cancel_left _ h0

theorem ProgressBar.update_current_le (pb : ProgressBar) (a : Int) (now : ℚ) :
    ((pb.update a now).1).current ≤ pb.total := by
  rw [ProgressBar.update_current]
  omega

theorem ProgressBar.updateRun_current_le (pb : ProgressBar)
    (calls : List (Int × ℚ)) (h0 : pb.current ≤ pb.total) :
    ((pb.updateRun calls).1).current ≤ pb.total := by
  induction calls generalizing pb with
  | nil => exact h0
  | cons c rest ih =>
    have h1 := ProgressBar.update_current_le pb c.1 c.2
    have h2 := ProgressBar.update_total pb c.1 c.2
    have h3 := ih (pb.update c.1 c.2).1 (by omega)
    rw [h2] at h3
    exact h3

theorem ProgressBar.updateRun_ones_current (ts : List ℚ) (pb : ProgressBar)
    (h : pb.current ≤ pb.total) :
    ((pb.updateRun (ts.map fun t => ((1 : Int), t))).1).current
      = min (pb.current + ts.length) pb.total := by
  induction ts generalizing pb with
  | nil =>
    simp only [List.map_nil, ProgressBar.updateRun, List.length_nil,
      Nat.cast_zero, Int.add_zero]
    omega
  | cons t rest ih =>
    have h1 := ProgressBar.update_current pb 1 t
    have h2 := ProgressBar.update_total pb 1 t
    have h3 := ih (pb.update 1 t).1 (by rw [h1, h2]; omega)
    show (((pb.update 1 t).1.updateRun (rest.map fun t => ((1 : Int), t))).1).current = _
    rw [h3, h1, h2]
    simp only [List.length_cons]
    push_cast
    omega

theorem ProgressBar.update_complete (pb : ProgressBar) (a : Int) (now : ℚ)
    (hge : pb.total ≤ pb.current + a) :
    (pb.update a now).1 = { pb with current := pb.total, lastUpdate := now }
    ∧ (pb.update a now).2 =
      [TermEv.clearLine,
       TermEv.write ((({ pb with current := pb.total, lastUpdate := now } :
         ProgressBar)).renderLine now)] := by
  unfold ProgressBar.update
  dsimp only
  have hmin : min (pb.current + a) pb.total = pb.total := by omega
  rw [hmin]
  rw [if_neg (fun hcon => absurd hcon.2 (lt_irrefl _))]
  exact ⟨rfl, rfl⟩

/-! ## Claims -/

/-- Claim C1: for every Spinner opened via the scoped spinner block
(`TerminalUI.spinner`), `stop()` is executed on every exit path of the block
— normal return, early return, or a failure raised by the protected body —
and when the body raises, `stop()` has been called exactly once and the
original failure propagates to the caller unchanged (never swallowed or
replaced). -/
theorem claim_C1_scoped_spinner_cleanup {ε α : Type} (message : String)
    (style : SpinnerStyle) (colorKey sfx : String) (body : Outcome ε α) :
    (TerminalUI.spinner message style colorKey sfx body).2 = body
    ∧ ((TerminalUI.spinner message style colorKey sfx body).1.2).countP
        TermEv.isStopCall = 1
    ∧ ((TerminalUI.spinner message style colorKey sfx body).1.2).countP
        TermEv.isClearLine = 1
    ∧ ((TerminalUI.spinner message style colorKey sfx body).1.2).countP
        TermEv.isShowCursor = 1
    ∧ ((TerminalUI.spinner message style colorKey sfx body).1.1.1).running = false
    ∧ ((TerminalUI.spinner message style colorKey sfx body).1.1.2).activeSpinners
        = [] :=
  ⟨rfl, rfl, rfl, rfl, rfl, rfl⟩

/-- Claim C4 counterexample: the lifecycle does not only move forward — a
spinner that has been started and then stopped (so its `running` flag is
cleared, the source's STOPPED) becomes running again when `start()` is
called once more, because `start` only checks the boolean `running` flag. -/
theorem claim_C4_counterexample :
    (((Spinner.init "Loading..." SpinnerStyle.DOTS "accent" "").start.1.stop.1)).running
        = false
    ∧ (((Spinner.init "Loading..." SpinnerStyle.DOTS "accent" "").start.1.stop.1.start.1)).running
        = true :=
  ⟨rfl, rfl⟩

/-- Claim C4 (amended): the session lifecycle is tracked by the single
boolean `running` flag; `stop` is idempotent — a second `stop()` leaves the
state unchanged and emits no cleanup events (no duplicate clear-line or
show-cursor) — and `start()` is a no-op while running; however a stopped
session is restartable: `start()` after `stop()` sets `running` again, so
the state machine is not forward-only. -/
theorem claim_C4_stop_idempotent_but_restartable (s : Spinner) :
    ((s.stop.1).stop = (s.stop.1, [TermEv.stopCall]))
    ∧ (s.stop.1).running = false
    ∧ (s.running = true → s.start = (s, [TermEv.startCall]))
    ∧ ((s.stop.1).start.1).running = true := by
  by_cases hr : s.running <;>
    simp [Spinner.stop, Spinner.start, hr]

/-- Claim C4 witness: instance of the amended claim at a concrete running
spinner — `start()` on a running session is a no-op. -/
theorem claim_C4_witness :
    ((Spinner.init "m" SpinnerStyle.DOTS "accent" "").start.1).start
      = ((Spinner.init "m" SpinnerStyle.DOTS "accent" "").start.1,
         [TermEv.startCall]) :=
  (claim_C4_stop_idempotent_but_restartable
    ((Spinner.init "m" SpinnerStyle.DOTS "accent" "").start.1)).2.2.1 rfl

/-- A concrete progress bar used by counterexamples below. -/
def pbFive : ProgressBar :=
  ProgressBar.init "task" 5 ProgressStyle.BLOCKS none true true 80 0

/-- Claim C5 counterexample: `finish()` called a second time is not a no-op
on output — the second call emits one more render (a clear-line plus a
write) and one more trailing newline, exactly like the first call. -/
theorem claim_C5_counterexample :
    (((pbFive.finish 0).1).finish 0).2.countP TermEv.isNewline = 1
    ∧ (((pbFive.finish 0).1).finish 0).2.countP TermEv.isWrite = 1
    ∧ (((pbFive.finish 0).1).finish 0).2.countP TermEv.isClearLine = 1 :=
  ⟨rfl, rfl, rfl⟩

/-- Claim C5 (amended): `finish()` forces `current = total`, renders, and
emits exactly one trailing newline; calling it twice leaves the progress
state identical to after the first call (idempotent on state), but the
second call re-renders and emits an additional newline — it is not a no-op
on output. -/
theorem claim_C5_finish_state_idempotent (pb : ProgressBar) (t1 t2 : ℚ) :
    ((pb.finish t1).1).current = pb.total
    ∧ (pb.finish t1).2.countP TermEv.isNewline = 1
    ∧ (pb.finish t1).2.countP TermEv.isWrite = 1
    ∧ ((pb.finish t1).1.finish t2).1 = (pb.finish t1).1
    ∧ ((pb.finish t1).1.finish t2).2.countP TermEv.isNewline = 1
    ∧ ((pb.finish t1).1.finish t2).2.countP TermEv.isWrite = 1 :=
  ⟨rfl, rfl, rfl, rfl, rfl, rfl⟩

/-- Claim C6 counterexample: constructing a ProgressBar with a negative
total is not rejected — `__init__` performs no validation, the state is
built with `total = -1` and `current = 0`, and rendering it raises no
failure (the checked render succeeds). -/
theorem claim_C6_counterexample :
    (ProgressBar.init "job" (-1) ProgressStyle.BLOCKS none true true 80 0).total = -1
    ∧ (ProgressBar.init "job" (-1) ProgressStyle.BLOCKS none true true 80 0).current = 0
    ∧ ((ProgressBar.init "job" (-1) ProgressStyle.BLOCKS none true true 80 0).renderChecked
        0).isSome = true := by
  refine ⟨rfl, rfl, ?_⟩
  rw [ProgressBar.renderChecked_eq]
  rfl

/-- Claim C6 (amended): constructing a ProgressBar with a negative total is
accepted, not rejected: the constructor stores the given total unchanged
with `current = 0` and performs no validation, and no failure surfaces at
render time either (every division in `_render` is guarded). -/
theorem claim_C6_negative_total_accepted (message : String) (total : Int)
    (style : ProgressStyle) (w : Option Int) (sp se : Bool) (uw : Int)
    (t0 now : ℚ) (hneg : total < 0) :
    (ProgressBar.init message total style w sp se uw t0).total = total
    ∧ (ProgressBar.init message total style w sp se uw t0).current = 0
    ∧ ((ProgressBar.init message total style w sp se uw t0).renderChecked
        now).isSome = true := by
  refine ⟨rfl, rfl, ?_⟩
  rw [ProgressBar.renderChecked_eq]
  rfl

/-- Claim C6 witness: the amended claim applied at total = -2. -/
theorem claim_C6_witness :
    (ProgressBar.init "j" (-2) ProgressStyle.BLOCKS none true true 80 0).total = -2 :=
  (claim_C6_negative_total_accepted "j" (-2) ProgressStyle.BLOCKS none true
    true 80 0 0 (by decide)).1

/-- Claim C8: for every non-randomized (non-MATRIX) spinner style with N
glyphs, the frame selected at index k equals the frame selected at k + N:
`Spinner._animate` indexes `frames[frame_index % len(frames)]`, so the
animation is periodic with period N. -/
theorem claim_C8_frames_periodic (style : SpinnerStyle) (k rand : Nat)
    (h : style ≠ SpinnerStyle.MATRIX) :
    frameAt style (k + style.frames.length) rand = frameAt style k rand := by
  unfold frameAt
  rw [if_neg h, if_neg h, Nat.add_mod_right]

/-- Claim C8 witness: periodicity at the CLASSIC style and index 0. -/
theorem claim_C8_witness :
    frameAt SpinnerStyle.CLASSIC
        (0 + (SpinnerStyle.frames SpinnerStyle.CLASSIC).length) 0
      = frameAt SpinnerStyle.CLASSIC 0 0 :=
  claim_C8_frames_periodic SpinnerStyle.CLASSIC 0 0 (by decide)

/-- Claim C10: `update` applies only the upper clamp at `total` — a negative
amount drives `current` negative (here `update(-1)` from `current = 0` with
`total = 5` yields `current = -1`) — while `set_progress` clamps its
argument into `[0, total]`, so `current` never becomes negative through
`set_progress` (for any state with non-negative total). -/
theorem claim_C10_update_lower_unclamped :
    ((pbFive.update (-1) 1).1).current < 0
    ∧ (∀ (pb : ProgressBar) (v : Int) (now : ℚ), 0 ≤ pb.total →
        0 ≤ ((pb.set_progress v now).1).current) := by
  constructor
  · rw [ProgressBar.update_current]
    decide
  · intro pb v now h
    show 0 ≤ min (max 0 v) pb.total
    omega

/-- Claim C10 witness: `set_progress (-7)` on the concrete bar with total 5
leaves `current` non-negative. -/
theorem claim_C10_witness :
    0 ≤ ((pbFive.set_progress (-7) 0).1).current :=
  claim_C10_update_lower_unclamped.2 pbFive (-7) 0 (by decide)

theorem ProgressBar.renderLine_percentage (pb : ProgressBar) (now : ℚ) :
    (pb.renderLine now).percentage = pb.percentage := rfl

theorem ProgressBar.percentage_of_total_zero (pb : ProgressBar)
    (h : pb.total = 0) : pb.percentage = 100 := by
  unfold ProgressBar.percentage
  simp [h]

/-- Claim C3: for every ProgressBar with `total == 0`, every render (via
`update`, `set_progress`, or `finish`) reports a percentage of 100,
deterministically, and no render path performs a division by zero — the
division-checked render always succeeds and agrees with the total render
function. -/
theorem claim_C3_total_zero_renders_100 (pb : ProgressBar) (a v : Int)
    (now tu : ℚ) :
    pb.renderChecked now = some (pb.renderLine now)
    ∧ (pb.total = 0 →
        (pb.renderLine now).percentage = 100
        ∧ (((pb.update a tu).1).renderLine now).percentage = 100
        ∧ (((pb.set_progress v tu).1).renderLine now).percentage = 100
        ∧ (((pb.finish tu).1).renderLine now).percentage = 100) := by
  refine ⟨ProgressBar.renderChecked_eq pb now, fun h0 => ⟨?_, ?_, ?_, ?_⟩⟩
  · rw [ProgressBar.renderLine_percentage]
    exact ProgressBar.percentage_of_total_zero pb h0
  · rw [ProgressBar.renderLine_percentage]
    exact ProgressBar.percentage_of_total_zero _
      (by rw [ProgressBar.update_total]; exact h0)
  · rw [ProgressBar.renderLine_percentage]
    exact ProgressBar.percentage_of_total_zero _ h0
  · rw [ProgressBar.renderLine_percentage]
    exact ProgressBar.percentage_of_total_zero _ h0

/-- Claim C3 witness: the zero-total bar renders percentage 100. -/
theorem claim_C3_witness :
    ((ProgressBar.init "t" 0 ProgressStyle.BLOCKS none true true 80 0).renderLine
      0).percentage = 100 :=
  ((claim_C3_total_zero_renders_100
    (ProgressBar.init "t" 0 ProgressStyle.BLOCKS none true true 80 0)
    1 1 0 0).2 rfl).1

/-- Claim C2: for every ProgressBar with `total > 0` and any sequence of
update calls with non-negative amounts, `current` never exceeds `total`;
calling `update(1)` exactly `total` times yields `current == total` with a
final rendered percentage of 100 (the update that reaches `total` is never
throttled and emits the render); and any further update with a non-negative
amount leaves `current == total`. -/
theorem claim_C2_update_clamped_at_total :
    (∀ (pb : ProgressBar) (calls : List (Int × ℚ)),
      (∀ c ∈ calls, (0 : Int) ≤ c.1) → pb.current ≤ pb.total →
      ((pb.updateRun calls).1).current ≤ pb.total)
    ∧ (∀ (total : Int), 0 < total →
        ∀ (ts : List ℚ), ts.length = total.toNat →
        ∀ (msg : String) (style : ProgressStyle) (w : Option Int)
          (sp se : Bool) (uw : Int) (t0 : ℚ),
        (((ProgressBar.init msg total style w sp se uw t0).updateRun
            (ts.map fun t => ((1 : Int), t))).1).current = total
        ∧ (((ProgressBar.init msg total style w sp se uw t0).updateRun
            (ts.map fun t => ((1 : Int), t))).1).percentage = 100)
    ∧ (∀ (pb : ProgressBar) (a : Int) (now : ℚ),
        0 ≤ a → pb.total ≤ pb.current + a →
        ((pb.update a now).1).current = pb.total
        ∧ (pb.update a now).2 =
            [TermEv.clearLine,
             TermEv.write (((pb.update a now).1).renderLine now)]
        ∧ (((pb.update a now).1).renderLine now).percentage = 100) := by
  refine ⟨?_, ?_, ?_⟩
  · intro pb calls _ h0
    exact ProgressBar.updateRun_current_le pb calls h0
  · intro total htot ts hlen msg style w sp se uw t0
    have hcur : (((ProgressBar.init msg total style w sp se uw t0).updateRun
        (ts.map fun t => ((1 : Int), t))).1).current = total := by
      rw [ProgressBar.updateRun_ones_current ts _ (by show (0:Int) ≤ total; omega)]
      rw [hlen]
      show min ((0:Int) + (total.toNat : Int)) total = total
      omega
    have htot2 : (((ProgressBar.init msg total style w sp se uw t0).updateRun
        (ts.map fun t => ((1 : Int), t))).1).total = total :=
      ProgressBar.updateRun_total _ _
    refine ⟨hcur, ?_⟩
    exact ProgressBar.percentage_of_complete _ (hcur.trans htot2.symm)
  · intro pb a now _ hge
    have h := ProgressBar.update_complete pb a now hge
    refine ⟨by rw [h.1], by rw [h.2, h.1], ?_⟩
    rw [ProgressBar.renderLine_percentage]
    refine ProgressBar.percentage_of_complete _ ?_
    rw [h.1]

/-- Claim C2 witness: one `update(1)` on a fresh bar with total 1 reaches
`current = total = 1` without being throttled. -/
theorem claim_C2_witness :
    (((ProgressBar.init "w" 1 ProgressStyle.BLOCKS none true true 80 0).update
        1 0).1).current = 1 :=
  (claim_C2_update_clamped_at_total.2.2
    (ProgressBar.init "w" 1 ProgressStyle.BLOCKS none true true 80 0) 1 0
    (by decide) (by decide)).1

/-- Claim C9: for every ProgressBar with `total > 0`, `width ≥ 0` and
`current ∈ [0, total]`, the rendered bar body is exactly `width` glyphs:
`filled = int((current/total) * width)` copies of the fill glyph followed by
`width - filled` copies of the empty glyph; for the GRADIENT style the empty
glyph is the last glyph of its tuple. -/
theorem claim_C9_bar_exact_width (pb : ProgressBar) (now : ℚ)
    (ht : 0 < pb.total) (hc0 : 0 ≤ pb.current) (hct : pb.current ≤ pb.total)
    (hw : 0 ≤ pb.width) :
    ((pb.renderLine now).bar).length = pb.width.toNat
    ∧ (pb.renderLine now).bar
        = List.replicate pb.filledWidth.toNat (styleChars pb.style).1
          ++ List.replicate (pb.width - pb.filledWidth).toNat
              (styleChars pb.style).2
    ∧ pb.filledWidth = Int.tdiv (pb.current * pb.width) pb.total
    ∧ (styleChars ProgressStyle.GRADIENT).2
        = (ProgressStyle.value ProgressStyle.GRADIENT).getLastD ' ' := by
  have hfw : pb.filledWidth = Int.tdiv (pb.current * pb.width) pb.total := by
    unfold ProgressBar.filledWidth
    rw [if_pos ht]
  have hf0 : 0 ≤ pb.filledWidth := by
    rw [hfw]
    exact Int.tdiv_nonneg (mul_nonneg hc0 hw) (le_of_lt ht)
  have hfW : pb.filledWidth ≤ pb.width := by
    rw [hfw, Int.tdiv_eq_ediv (mul_nonneg hc0 hw) (le_of_lt ht)]
    calc pb.current * pb.width / pb.total
        ≤ pb.total * pb.width / pb.total :=
          Int.ediv_le_ediv ht (mul_le_mul_of_nonneg_right hct hw)
      _ = pb.width := Int.mul_ediv_cancel_left _ (ne_of_gt ht)
  refine ⟨?_, rfl, hfw, rfl⟩
  show (List.replicate pb.filledWidth.toNat (styleChars pb.style).1
        ++ List.replicate (pb.width - pb.filledWidth).toNat
            (styleChars pb.style).2).length = pb.width.toNat
  rw [List.length_append, List.length_replicate, List.length_replicate]
  omega

/-- Claim C9 witness: a bar with total 10, width 4 and current 0 renders a
bar body of exactly 4 glyphs. -/
theorem claim_C9_witness :
    (((ProgressBar.init "x" 10 ProgressStyle.BLOCKS (some 4) true true 80
        0).renderLine 0).bar).length = 4 :=
  (claim_C9_bar_exact_width
    (ProgressBar.init "x" 10 ProgressStyle.BLOCKS (some 4) true true 80 0) 0
    (by decide) (by decide) (by decide) (by decide)).1

theorem MultiProgress.renderAll_moveUp_count (m : MultiProgress) (now : ℚ) :
    (m.render_all now).countP TermEv.isMoveUp = m.bars.length := by
  unfold MultiProgress.render_all
  rw [List.countP_append]
  have h1 : ∀ n : Nat,
      ((List.replicate n [TermEv.moveUp 1, TermEv.clearLine]).flatten).countP
        TermEv.isMoveUp = n := by
    intro n
    induction n with
    | zero => rfl
    | succ k ih =>
      rw [List.replicate_succ, List.flatten_cons, List.countP_append, ih]
      have hblk : ([TermEv.moveUp 1, TermEv.clearLine].countP
          TermEv.isMoveUp) = 1 := rfl
      rw [hblk]
      omega
  have h2 : (((m.bars.map fun p => p.2.renderEvents now ++
      [TermEv.newline])).flatten).countP TermEv.isMoveUp = 0 := by
    induction m.bars with
    | nil => rfl
    | cons b rest ih =>
      rw [List.map_cons, List.flatten_cons, List.countP_append, ih]
      have hblk : ((b.2.renderEvents now ++ [TermEv.newline]).countP
          TermEv.isMoveUp) = 0 := rfl
      rw [hblk]
  rw [h1, h2]
  omega

theorem MultiProgress.renderAll_writes_in_order (m : MultiProgress) (now : ℚ) :
    (m.render_all now).filter TermEv.isWrite
      = m.bars.map fun p => TermEv.write (p.2.renderLine now) := by
  unfold MultiProgress.render_all
  rw [List.filter_append]
  have h1 : ∀ n : Nat,
      ((List.replicate n [TermEv.moveUp 1, TermEv.clearLine]).flatten).filter
        TermEv.isWrite = [] := by
    intro n
    induction n with
    | zero => rfl
    | succ k ih =>
      rw [List.replicate_succ, List.flatten_cons, List.filter_append, ih]
      rfl
  have h2 : (((m.bars.map fun p => p.2.renderEvents now ++
      [TermEv.newline])).flatten).filter TermEv.isWrite
      = m.bars.map fun p => TermEv.write (p.2.renderLine now) := by
    induction m.bars with
    | nil => rfl
    | cons b rest ih =>
      rw [List.map_cons, List.flatten_cons, List.filter_append, ih]
      rfl
  rw [h1, h2, List.nil_append]

/-- Registry with one bar, used by the C7 counterexample. -/
def mpOne : MultiProgress :=
  (MultiProgress.add_progress ⟨[]⟩ "a" "A" 10 ProgressStyle.BLOCKS none true
    true 80 0).1

/-- The same registry after two more bars were added, used by the C7
counterexample. -/
def mpThree : MultiProgress :=
  ((mpOne.add_progress "b" "B" 10 ProgressStyle.BLOCKS none true true 80
    0).1.add_progress "c" "C" 10 ProgressStyle.BLOCKS none true true 80 0).1

/-- Claim C7 counterexample: `render_all` does not clear one line per line
rendered by the previous `render_all` call — it clears one line per
currently registered bar.  Here the previous call rendered one line (one
bar registered), then two bars are added, and the next call issues three
move-up-and-clear operations, not one. -/
theorem claim_C7_counterexample :
    (mpOne.render_all 0).countP TermEv.isNewline = 1
    ∧ (mpThree.render_all 1).countP TermEv.isMoveUp = 3
    ∧ ¬ ((mpThree.render_all 1).countP TermEv.isMoveUp
          = (mpOne.render_all 0).countP TermEv.isNewline) := by
  refine ⟨rfl, rfl, ?_⟩
  rw [show (mpThree.render_all 1).countP TermEv.isMoveUp = 3 from rfl,
    show (mpOne.render_all 0).countP TermEv.isNewline = 1 from rfl]
  decide

/-- Claim C7 (amended): `render_all`, under the registry lock, performs one
move-cursor-up-and-clear-line operation per **currently registered** bar
(the current registry size, not a count tracked from the previous call) —
so with 3 registered bars it issues exactly 3 move-up-plus-clear operations
before repainting — then repaints every registered bar in registry
insertion order, each terminated by a newline, regardless of which bar was
updated most recently. -/
theorem claim_C7_renderAll_clears_current_count (m : MultiProgress) (now : ℚ) :
    (m.render_all now).countP TermEv.isMoveUp = m.bars.length
    ∧ (m.render_all now)
        = (List.replicate m.bars.length
            [TermEv.moveUp 1, TermEv.clearLine]).flatten
          ++ (m.bars.map fun p =>
              [TermEv.clearLine, TermEv.write (p.2.renderLine now),
               TermEv.newline]).flatten
    ∧ (m.render_all now).filter TermEv.isWrite
        = m.bars.map fun p => TermEv.write (p.2.renderLine now) :=
  ⟨MultiProgress.renderAll_moveUp_count m now, rfl,
   MultiProgress.renderAll_writes_in_order m now⟩
